import Mathlib

/-!
Shallow embedding of the Fit-check-AI virtual try-on application.

Sources embedded here:
* `src/unnamed/part_001` — the shared type declarations (`Category`,
  `ClothingItem`, `PlacedItem`).
* `src/unnamed/part_000` — the `App` component: the session state
  (`queue`, `activeItems`), the operations `handleTryOn`, `clearActive`,
  `updateItemTransform`, and the per-frame compositor `renderLoop`
  (anchor/scale selection, mirrored screen mapping, lazy image loading).
* `src/services/geminiService.ts` — `analyzeClothingImage` with its two
  degradation paths (missing API key, failed call).

Numbers are modelled as exact rationals (`ℚ`): every constant appearing in
the claims (0.1, 0.2, 1.8, 2.5) is exactly representable, and the claimed
properties are algebraic identities and orderings, not float phenomena.
Quantities the render loop obtains from the platform or from transcendental
math (`Math.sqrt` for `shoulderWidth`, `Math.atan2` for `angleRad`,
detected landmark coordinates, video dimensions) are inputs of the embedded
functions, exactly as the claims treat them.
-/

/-- `Category` from `src/unnamed/part_001`:
`'TOP' | 'BOTTOM' | 'DRESS' | 'ACCESSORY' | 'UNKNOWN'`. -/
inductive Category where
  | TOP
  | BOTTOM
  | DRESS
  | ACCESSORY
  | UNKNOWN
deriving DecidableEq, Repr

/-- `ClothingItem` from `src/unnamed/part_001`. `timestamp` is the
`Date.now()` millisecond count, an integer. -/
structure ClothingItem where
  id : String
  imageUrl : String
  category : Category
  name : String
  timestamp : ℤ
deriving DecidableEq, Repr

/-- `PlacedItem extends ClothingItem` from `src/unnamed/part_001`:
the manual adjustment fields. -/
structure PlacedItem extends ClothingItem where
  scale : ℚ
  rotation : ℚ
  offsetX : ℚ
  offsetY : ℚ
deriving DecidableEq, Repr

/-- The two pieces of React state of `App` (`src/unnamed/part_000`,
lines 20–21) that the clothing-session claims are about: the staging
`queue` and the `activeItems` placement list. -/
structure SessionState where
  queue : List ClothingItem
  activeItems : List PlacedItem
deriving DecidableEq, Repr

/-- `handleTryOn` (`src/unnamed/part_000` lines 118–129):
`queue.map(item => ({...item, scale: 1.0, rotation: 0, offsetX: 0,
offsetY: 0}))` becomes the new `activeItems`; the queue is not written. -/
def handleTryOn (s : SessionState) : SessionState :=
  { s with
    activeItems := s.queue.map (fun item =>
      { toClothingItem := item
        scale := 1.0
        rotation := 0
        offsetX := 0
        offsetY := 0 }) }

/-- `clearActive` (`src/unnamed/part_000` lines 131–134):
`setActiveItems([]); setQueue([])`. -/
def clearActive (s : SessionState) : SessionState :=
  { s with activeItems := [], queue := [] }

/-- `updateItemTransform` (`src/unnamed/part_000` lines 302–317): early
return when `activeItems.length === 0`; otherwise copy the array and
overwrite the entry at index `length - 1` with the deltas applied, the
scale clamped by `Math.max(0.1, item.scale + deltaScale)`. -/
def updateItemTransform (deltaScale deltaRot deltaX deltaY : ℚ)
    (s : SessionState) : SessionState :=
  if h : s.activeItems.length = 0 then s
  else
    let index := s.activeItems.length - 1
    let item := s.activeItems.get ⟨index, by omega⟩
    { s with
      activeItems := s.activeItems.set index
        { item with
          scale := max 0.1 (item.scale + deltaScale)
          rotation := item.rotation + deltaRot
          offsetX := item.offsetX + deltaX
          offsetY := item.offsetY + deltaY } }

/-- The user-triggerable mutations of the session state that touch `queue`
or `activeItems` in `src/unnamed/part_000`: the upload handler's
`setQueue(prev => [...prev, newItem])` (line 104; the closet click at line
507 performs the same append), the queue chip's
`setQueue(queue.filter(i => i.id !== item.id))` (line 371), `handleTryOn`,
`clearActive`, and `updateItemTransform`. -/
inductive SessionOp where
  | upload (item : ClothingItem)
  | removeFromQueue (id : String)
  | tryOn
  | clear
  | adjust (deltaScale deltaRot deltaX deltaY : ℚ)

/-- One step of the session state machine. -/
def applyOp (s : SessionState) : SessionOp → SessionState
  | .upload item => { s with queue := s.queue ++ [item] }
  | .removeFromQueue id => { s with queue := s.queue.filter (fun i => i.id != id) }
  | .tryOn => handleTryOn s
  | .clear => clearActive s
  | .adjust ds dr dx dy => updateItemTransform ds dr dx dy s

/-- A whole interaction: the ops applied in order. -/
def applyOps (s : SessionState) (ops : List SessionOp) : SessionState :=
  ops.foldl applyOp s

/-- The invariant of claim C2: every placed garment's scale factor is at
least 0.1. -/
def ScaleInv (s : SessionState) : Prop :=
  ∀ i ∈ s.activeItems, (0.1 : ℚ) ≤ i.scale

instance (s : SessionState) : Decidable (ScaleInv s) :=
  inferInstanceAs (Decidable (∀ i ∈ s.activeItems, (0.1 : ℚ) ≤ i.scale))

/-!
## The compositor (`renderLoop`, `src/unnamed/part_000` lines 173–291)

Per animation tick, once a pose is detected, the loop derives the body
metrics (lines 219–234) — `shoulderWidth` (a `Math.sqrt`), `angleRad`
(a `Math.atan2`), and the normalized shoulder/hip center points — and then
iterates over `activeItems`. The metrics are the `BodyFrame` inputs here;
the claims quantify over them (`shoulderWidthPx`, `shoulderCenter`,
`hipCenter`) without re-deriving them.

The per-item drawing uses the browser image cache
`activeItemImagesRef.current : Map<string, HTMLImageElement>`. An
`HTMLImageElement` is modelled by `Img`: creating one and assigning `src`
(lines 240–241) starts an asynchronous decode, so the fresh element has
`complete = false` and `naturalWidth = naturalHeight = 0`; the decode
completing later flips those, outside the tick. `ctx.drawImage` with an
image whose decode has not completed paints nothing (HTML canvas
semantics: an `img` that is not fully decodable is a no-op draw), so the
tick's output list of paints keeps only `complete` images.
-/

/-- The body metrics computed by `renderLoop` lines 219–234 and consumed
by the per-item placement code. Coordinates are normalized (0..1) video
coordinates, `shoulderWidth` is in canvas pixels. -/
structure BodyFrame where
  shoulderCenterX : ℚ
  shoulderCenterY : ℚ
  hipCenterX : ℚ
  hipCenterY : ℚ
  shoulderWidth : ℚ
  angleRad : ℚ
deriving DecidableEq, Repr

/-- An `HTMLImageElement` as the render loop observes it: its `src`, its
natural dimensions, and whether its decode has completed. -/
structure Img where
  src : String
  naturalWidth : ℚ
  naturalHeight : ℚ
  complete : Bool
deriving DecidableEq, Repr

/-- `new Image(); img.src = url` (lines 240–241): a fresh element whose
asynchronous decode has just been triggered. -/
def newImage (url : String) : Img :=
  { src := url, naturalWidth := 0, naturalHeight := 0, complete := false }

/-- The image cache `activeItemImagesRef.current`, a `Map` keyed by item
id, in insertion order. -/
def ImageStore : Type := List (String × Img)

/-- `Map.get(id)`: the entry for `id`, if present. -/
def lookupImg : List (String × Img) → String → Option Img
  | [], _ => none
  | p :: rest, id => if p.1 = id then some p.2 else lookupImg rest id

/-- How many cache entries carry a given id (used to state that a decode
is triggered at most once per id). -/
def countId (store : List (String × Img)) (id : String) : ℕ :=
  store.countP (fun p => p.1 == id)

/-- The anchor point and base scale selected for one garment
(`renderLoop` lines 246–258): defaults `shoulderCenter` / `shoulderWidth *
2.5`, overridden for `BOTTOM` (hip center, `shoulderWidth * 1.8`) and for
`DRESS` (`anchorY` moved 20% of the way toward the hips). -/
structure AnchorScale where
  anchorX : ℚ
  anchorY : ℚ
  baseScale : ℚ
deriving DecidableEq, Repr

/-- Lines 246–258 of `src/unnamed/part_000`, as the `let`-mutation chain
in the source: initialize to the shoulder defaults, then the
`if / else if` on the category. -/
def anchorScaleFor (frame : BodyFrame) (category : Category) : AnchorScale :=
  let anchorX := frame.shoulderCenterX
  let anchorY := frame.shoulderCenterY
  let baseScale := frame.shoulderWidth * 2.5
  if category = Category.BOTTOM then
    { anchorX := frame.hipCenterX
      anchorY := frame.hipCenterY
      baseScale := frame.shoulderWidth * 1.8 }
  else if category = Category.DRESS then
    { anchorX := anchorX
      anchorY := frame.shoulderCenterY + (frame.hipCenterY - frame.shoulderCenterY) * 0.2
      baseScale := baseScale }
  else
    { anchorX := anchorX, anchorY := anchorY, baseScale := baseScale }

/-- One `ctx.drawImage` issued for a garment: where it is painted and how
big. The canvas applies `ctx.rotate(-angleRad + rotationDeg·π/180)`
(line 279); the two exact inputs of that rotation are recorded. -/
structure DrawOp where
  itemId : String
  screenX : ℚ
  screenY : ℚ
  angleRad : ℚ
  rotationDeg : ℚ
  finalWidth : ℚ
  finalHeight : ℚ
deriving DecidableEq, Repr

/-- Lines 260–283: the transform and paint of one garment whose image is
in the cache. `aspect` is `img.naturalWidth / img.naturalHeight`
(`aspectRatio` in the source); `screenX` mirrors the x coordinate. -/
def drawPlacedItem (frame : BodyFrame) (canvasWidth canvasHeight : ℚ)
    (img : Img) (item : PlacedItem) : DrawOp :=
  let a := anchorScaleFor frame item.category
  let finalWidth := a.baseScale * item.scale
  let aspect := img.naturalWidth / img.naturalHeight
  let finalHeight := finalWidth / aspect
  let screenX := (1 - a.anchorX) * canvasWidth + item.offsetX
  let screenY := a.anchorY * canvasHeight + item.offsetY
  { itemId := item.id
    screenX := screenX
    screenY := screenY
    angleRad := frame.angleRad
    rotationDeg := item.rotation
    finalWidth := finalWidth
    finalHeight := finalHeight }

/-- The `activeItems.forEach` body (lines 236–285), threading the image
cache: a garment whose id is missing from the cache gets a fresh element
inserted (decode triggered) and is skipped this tick (`return`); a garment
with a cache entry is passed to `ctx.drawImage`, which paints only if the
image's decode has completed. Returns the cache after the tick and the
list of paints, in item order. -/
def renderItems (frame : BodyFrame) (canvasWidth canvasHeight : ℚ) :
    List PlacedItem → List (String × Img) → List (String × Img) × List DrawOp
  | [], store => (store, [])
  | item :: rest, store =>
    match lookupImg store item.id with
    | none =>
      renderItems frame canvasWidth canvasHeight rest
        (store ++ [(item.id, newImage item.imageUrl)])
    | some img =>
      let out := renderItems frame canvasWidth canvasHeight rest store
      (out.1,
        (if img.complete then [drawPlacedItem frame canvasWidth canvasHeight img item] else [])
          ++ out.2)

/-!
## Cache bookkeeping lemmas for the lazy image loading of `renderLoop`
-/

lemma lookupImg_append_of_some {store : List (String × Img)} {id : String}
    {v : Img} (h : lookupImg store id = some v) (store' : List (String × Img)) :
    lookupImg (store ++ store') id = some v := by
  induction store with
  | nil => simp [lookupImg] at h
  | cons p rest ih =>
    rw [List.cons_append]
    unfold lookupImg at h ⊢
    split at h
    · rw [if_pos (by assumption)]; exact h
    · rw [if_neg (by assumption)]; exact ih h

lemma lookupImg_append_singleton_of_none {store : List (String × Img)}
    {id : String} (h : lookupImg store id = none) (p : String × Img) :
    lookupImg (store ++ [p]) id = if p.1 = id then some p.2 else none := by
  induction store with
  | nil => rfl
  | cons q rest ih =>
    rw [List.cons_append]
    unfold lookupImg at h ⊢
    split at h
    · exact absurd h (by simp)
    · rw [if_neg (by assumption)]; exact ih h

lemma countId_append (s t : List (String × Img)) (id : String) :
    countId (s ++ t) id = countId s id + countId t id :=
  List.countP_append _ _ _

lemma lookupImg_none_iff_countId_zero (store : List (String × Img))
    (id : String) : lookupImg store id = none ↔ countId store id = 0 := by
  induction store with
  | nil => simp [lookupImg, countId]
  | cons p rest ih =>
    by_cases hp : p.1 = id
    · simp [lookupImg, countId, List.countP_cons, hp]
    · simpa [lookupImg, countId, List.countP_cons, hp] using ih

/-- Garments painted by a tick come only from cache entries that were
already present and fully decoded when the tick started. -/
lemma renderItems_draws_ready (frame : BodyFrame) (cw ch : ℚ) :
    ∀ (items : List PlacedItem) (store : List (String × Img))
      (op : DrawOp), op ∈ (renderItems frame cw ch items store).2 →
      ∃ img, lookupImg store op.itemId = some img ∧ img.complete = true := by
  intro items
  induction items with
  | nil => intro store op hop; simp [renderItems] at hop
  | cons item rest ih =>
    intro store op hop
    unfold renderItems at hop
    rcases hlook : lookupImg store item.id with _ | img0
    · rw [hlook] at hop
      obtain ⟨img, himg, hc⟩ := ih _ op hop
      rcases hcase : lookupImg store op.itemId with _ | v
      · rw [lookupImg_append_singleton_of_none hcase] at himg
        split at himg
        · cases himg
          simp [newImage] at hc
        · cases himg
      · rw [lookupImg_append_of_some hcase] at himg
        cases himg
        exact ⟨img, rfl, hc⟩
    · rw [hlook] at hop
      simp only [List.mem_append] at hop
      rcases hop with hop | hop
      · rcases hcomp : img0.complete with _ | _
        · rw [hcomp] at hop; simp at hop
        · rw [hcomp] at hop
          simp only [if_true, List.mem_singleton] at hop
          subst hop
          exact ⟨img0, hlook, hcomp⟩
      · exact ih _ op hop

/-- A tick never starts a second decode for an id that already has a cache
entry, whether that entry is still in flight or complete. -/
lemma renderItems_count_of_some (frame : BodyFrame) (cw ch : ℚ) :
    ∀ (items : List PlacedItem) (store : List (String × Img)) (id : String),
      (lookupImg store id).isSome →
      countId (renderItems frame cw ch items store).1 id = countId store id := by
  intro items
  induction items with
  | nil => intro store id _; rfl
  | cons item rest ih =>
    intro store id hsome
    unfold renderItems
    rcases hlook : lookupImg store item.id with _ | img0
    · have hne : item.id ≠ id := by
        intro he
        rw [← he, hlook] at hsome
        simp at hsome
      have hkeep : (lookupImg (store ++ [(item.id, newImage item.imageUrl)]) id).isSome := by
        obtain ⟨v, hv⟩ := Option.isSome_iff_exists.mp hsome
        rw [lookupImg_append_of_some hv]
        rfl
      rw [ih _ id hkeep, countId_append]
      simp [countId, List.countP_cons, hne]
    · exact ih _ id hsome

/-- A tick creates at most one cache entry for an id that starts with
none. -/
lemma renderItems_count_of_none (frame : BodyFrame) (cw ch : ℚ) :
    ∀ (items : List PlacedItem) (store : List (String × Img)) (id : String),
      lookupImg store id = none →
      countId (renderItems frame cw ch items store).1 id ≤ 1 := by
  intro items
  induction items with
  | nil =>
    intro store id hnone
    rw [show (renderItems frame cw ch [] store).1 = store from rfl,
      (lookupImg_none_iff_countId_zero store id).mp hnone]
    omega
  | cons item rest ih =>
    intro store id hnone
    unfold renderItems
    rcases hlook : lookupImg store item.id with _ | img0
    · by_cases he : item.id = id
      · subst he
        have hkeep : lookupImg (store ++ [(item.id, newImage item.imageUrl)]) item.id
            = some (newImage item.imageUrl) := by
          rw [lookupImg_append_singleton_of_none hnone, if_pos rfl]
        rw [renderItems_count_of_some frame cw ch rest _ item.id (by rw [hkeep]; rfl)]
        rw [countId_append, (lookupImg_none_iff_countId_zero store item.id).mp hnone]
        simp [countId, List.countP_cons]
      · have hstill : lookupImg (store ++ [(item.id, newImage item.imageUrl)]) id = none := by
          rw [lookupImg_append_singleton_of_none hnone, if_neg he]
        exact ih _ id hstill
    · exact ih _ id hnone

/-!
## Claim theorems about the lazy loading and the service
-/

/-- Claim C8: in any compositor tick, a garment whose image is not yet a
fully decoded drawable is not painted — every paint comes from a cache
entry that was present and complete before the tick — and the background
load for an id is triggered at most once: an id with an existing entry
(in flight or complete) gets no new entry, and an id with no entry ends
the tick with at most one. -/
theorem compositor_skips_unready_and_loads_once (frame : BodyFrame)
    (cw ch : ℚ) (items : List PlacedItem) (store : List (String × Img)) :
    (∀ op ∈ (renderItems frame cw ch items store).2,
      ∃ img, lookupImg store op.itemId = some img ∧ img.complete = true) ∧
    (∀ id, (lookupImg store id).isSome →
      countId (renderItems frame cw ch items store).1 id = countId store id) ∧
    (∀ id, lookupImg store id = none →
      countId (renderItems frame cw ch items store).1 id ≤ 1) :=
  ⟨fun op hop => renderItems_draws_ready frame cw ch items store op hop,
   fun id h => renderItems_count_of_some frame cw ch items store id h,
   fun id h => renderItems_count_of_none frame cw ch items store id h⟩

/-- A fully decoded 40×60 image for the witness cache. -/
def exImgReady : Img :=
  { src := "u1", naturalWidth := 40, naturalHeight := 60, complete := true }

/-- A witness cache holding a single complete entry for id `g1`. -/
def exStore : List (String × Img) := [("g1", exImgReady)]

/-- A placed garment whose id `g2` has no cache entry. -/
def exItem2 : PlacedItem :=
  { id := "g2", imageUrl := "u2", category := Category.BOTTOM
    name := "jeans", timestamp := 0
    scale := 1.0, rotation := 0, offsetX := 0, offsetY := 0 }

/-- Witness for C8: ticking over `[exItem, exItem2]` against `exStore`
keeps exactly one `g1` entry (already cached, no re-trigger) and creates
at most one `g2` entry (absent, one lazy load). -/
theorem compositor_skips_unready_and_loads_once_witness :
    (countId (renderItems exFrame 1000 720 [exItem, exItem2] exStore).1 "g1" =
      countId exStore "g1") ∧
    (countId (renderItems exFrame 1000 720 [exItem, exItem2] exStore).1 "g2" ≤ 1) :=
  ⟨(compositor_skips_unready_and_loads_once exFrame 1000 720 [exItem, exItem2]
      exStore).2.1 "g1" (by rfl),
   (compositor_skips_unready_and_loads_once exFrame 1000 720 [exItem, exItem2]
      exStore).2.2 "g2" (by rfl)⟩

/-!
## The classification service (`src/services/geminiService.ts`)

`analyzeClothingImage` has three outcomes: the hard-coded mock when
`API_KEY` is empty (lines 19–26), the parsed model response on success,
and the hard-coded fallback in the `catch` (lines 81–89). The network
call and JSON parse are external effects; their outcome is an input here
(`Except`, the error case covering both a thrown fetch/parse error and
the `"No response from Gemini"` throw, which the same `catch` handles).
-/

/-- `AnalysisResult` from `src/services/geminiService.ts` lines 9–13. -/
structure AnalysisResult where
  category : Category
  name : String
  color : String
deriving DecidableEq, Repr

/-- `analyzeClothingImage` (lines 18–89), with the service call's outcome
as an explicit input: empty `API_KEY` short-circuits to the mock result;
otherwise a successful call is parsed through, and any failure is caught
and replaced by the fallback result. It never throws. -/
def analyzeClothingImage (apiKey : String)
    (callOutcome : Except String AnalysisResult) : AnalysisResult :=
  if apiKey = "" then
    { category := Category.TOP, name := "Unidentified Item", color := "Unknown" }
  else
    match callOutcome with
    | .ok r => r
    | .error _ =>
      { category := Category.TOP, name := "New Item", color := "Mixed" }

/-!
## Theorems
-/

/-- Claim C1: for every body frame, the compositor selects anchor and base
scale by category — `TOP` and the categories it does not recognize
(`ACCESSORY`, `UNKNOWN`) get the shoulder center and `2.5 ×
shoulderWidth`; `BOTTOM` gets the hip center and `1.8 × shoulderWidth`;
`DRESS` keeps the shoulder x, moves y 20% of the way toward the hips, and
keeps the `TOP` default base scale. -/
theorem compositor_anchor_scale_by_category (frame : BodyFrame) (c : Category) :
    ((c = Category.TOP ∨ c = Category.ACCESSORY ∨ c = Category.UNKNOWN) →
      anchorScaleFor frame c =
        { anchorX := frame.shoulderCenterX
          anchorY := frame.shoulderCenterY
          baseScale := 2.5 * frame.shoulderWidth }) ∧
    (c = Category.BOTTOM →
      anchorScaleFor frame c =
        { anchorX := frame.hipCenterX
          anchorY := frame.hipCenterY
          baseScale := 1.8 * frame.shoulderWidth }) ∧
    (c = Category.DRESS →
      anchorScaleFor frame c =
        { anchorX := frame.shoulderCenterX
          anchorY := frame.shoulderCenterY +
            0.2 * (frame.hipCenterY - frame.shoulderCenterY)
          baseScale := 2.5 * frame.shoulderWidth }) := by
  refine ⟨?_, ?_, ?_⟩ <;> rintro h
  · rcases h with h | h | h <;> subst h <;>
      simp [anchorScaleFor, mul_comm]
  · subst h; simp [anchorScaleFor, mul_comm]
  · subst h; simp [anchorScaleFor, mul_comm]

/-- A concrete body frame used by the witnesses: shoulders at
(0.5, 0.3), hips at (0.52, 0.7), a 100-pixel shoulder width, level
shoulders. -/
def exFrame : BodyFrame :=
  { shoulderCenterX := 1/2
    shoulderCenterY := 3/10
    hipCenterX := 13/25
    hipCenterY := 7/10
    shoulderWidth := 100
    angleRad := 0 }

/-- Witness for C1 at `exFrame`, one category of each branch. -/
theorem compositor_anchor_scale_by_category_witness :
    (anchorScaleFor exFrame Category.TOP =
        { anchorX := 1/2, anchorY := 3/10, baseScale := 2.5 * 100 }) ∧
    (anchorScaleFor exFrame Category.BOTTOM =
        { anchorX := 13/25, anchorY := 7/10, baseScale := 1.8 * 100 }) ∧
    (anchorScaleFor exFrame Category.DRESS =
        { anchorX := 1/2
          anchorY := 3/10 + 0.2 * (7/10 - 3/10)
          baseScale := 2.5 * 100 }) :=
  ⟨(compositor_anchor_scale_by_category exFrame Category.TOP).1 (Or.inl rfl),
   (compositor_anchor_scale_by_category exFrame Category.BOTTOM).2.1 rfl,
   (compositor_anchor_scale_by_category exFrame Category.DRESS).2.2 rfl⟩

/-- Overwriting the last slot of a list (`updated[length-1] = v` on a copy
of the array) replaces exactly the last element. -/
lemma set_concat_length {α : Type} (xs : List α) (x v : α) :
    (xs ++ [x]).set xs.length v = xs ++ [v] := by
  induction xs with
  | nil => rfl
  | cons y ys ih => simp [List.set, ih]

/-- `updateItemTransform` on an empty placement list returns the state as
given. -/
lemma updateItemTransform_nil (ds dr dx dy : ℚ) (q : List ClothingItem) :
    updateItemTransform ds dr dx dy ⟨q, []⟩ = ⟨q, []⟩ := by
  unfold updateItemTransform
  rw [dif_pos (show (⟨q, []⟩ : SessionState).activeItems.length = 0 from rfl)]

/-- `updateItemTransform` on a nonempty placement list rewrites exactly
the last entry. -/
lemma updateItemTransform_concat (ds dr dx dy : ℚ) (q : List ClothingItem)
    (xs : List PlacedItem) (x : PlacedItem) :
    updateItemTransform ds dr dx dy ⟨q, xs ++ [x]⟩ =
      ⟨q, xs ++
        [{ x with
            scale := max 0.1 (x.scale + ds)
            rotation := x.rotation + dr
            offsetX := x.offsetX + dx
            offsetY := x.offsetY + dy }]⟩ := by
  unfold updateItemTransform
  rw [dif_neg (by simp)]
  dsimp only
  have hl : (xs ++ [x]).length - 1 = xs.length := by simp
  simp only [hl, List.get_eq_getElem]
  rw [List.getElem_concat_length xs x _ rfl (by simp)]
  rw [set_concat_length]

/-- Unfolding one step of an interaction. -/
lemma applyOps_cons (s : SessionState) (op : SessionOp) (ops : List SessionOp) :
    applyOps s (op :: ops) = applyOps (applyOp s op) ops := rfl

/-- Any single session operation keeps every placed garment's scale at or
above 0.1: the only ops that put items into `activeItems` are `tryOn`
(scale 1.0) and `adjust` (clamped by `Math.max(0.1, ·)`). -/
lemma scaleInv_applyOp (s : SessionState) (op : SessionOp)
    (h : ScaleInv s) : ScaleInv (applyOp s op) := by
  cases op with
  | upload item => exact fun i hi => h i hi
  | removeFromQueue id => exact fun i hi => h i hi
  | clear =>
    intro i hi
    simp [applyOp, clearActive] at hi
  | tryOn =>
    intro i hi
    simp only [applyOp, handleTryOn, List.mem_map] at hi
    obtain ⟨src, _, rfl⟩ := hi
    norm_num
  | adjust ds dr dx dy =>
    rcases s with ⟨q, a⟩
    rcases List.eq_nil_or_concat a with ha | ⟨xs, x, ha⟩
    · subst ha
      show ScaleInv (updateItemTransform ds dr dx dy ⟨q, []⟩)
      rw [updateItemTransform_nil]
      exact fun i hi => absurd hi (by simp)
    · rw [List.concat_eq_append] at ha
      subst ha
      show ScaleInv (updateItemTransform ds dr dx dy ⟨q, xs ++ [x]⟩)
      rw [updateItemTransform_concat]
      intro i hi
      rcases List.mem_append.mp hi with hi | hi
      · exact h i (List.mem_append.mpr (Or.inl hi))
      · rcases List.mem_singleton.mp hi with rfl
        exact le_max_left _ _
/-- The scale floor survives any interaction sequence. -/
lemma scaleInv_applyOps (s : SessionState) (ops : List SessionOp)
    (h : ScaleInv s) : ScaleInv (applyOps s ops) := by
  induction ops generalizing s with
  | nil => exact h
  | cons op ops ih => exact ih (applyOp s op) (scaleInv_applyOp s op h)

/-- A garment as `handleTryOn` commits it: scale 1.0, no rotation, no
offset. -/
def exItem : PlacedItem :=
  { id := "g1", imageUrl := "u1", category := Category.TOP
    name := "tee", timestamp := 0
    scale := 1.0, rotation := 0, offsetX := 0, offsetY := 0 }

/-- `exItem` driven to the clamp floor. -/
def exItemFloor : PlacedItem := { exItem with scale := 0.1 }

lemma applyOp_adjust_exItem :
    applyOp ⟨[], [exItem]⟩ (SessionOp.adjust (-1) 0 0 0) = ⟨[], [exItemFloor]⟩ := by
  show updateItemTransform (-1) 0 0 0 ⟨[], [] ++ [exItem]⟩ = _
  rw [updateItemTransform_concat]
  norm_num [exItem, exItemFloor, max_def]

lemma applyOp_adjust_exItemFloor_fixed :
    applyOp ⟨[], [exItemFloor]⟩ (SessionOp.adjust (-1) 0 0 0) = ⟨[], [exItemFloor]⟩ := by
  show updateItemTransform (-1) 0 0 0 ⟨[], [] ++ [exItemFloor]⟩ = _
  rw [updateItemTransform_concat]
  norm_num [exItem, exItemFloor, max_def]

/-- Iterating an operation the state is a fixed point of changes
nothing. -/
lemma applyOps_replicate_fixed (s : SessionState) (op : SessionOp)
    (hfix : applyOp s op = s) (n : ℕ) :
    applyOps s (List.replicate n op) = s := by
  induction n with
  | zero => rfl
  | succ n ih =>
    rw [List.replicate_succ]
    show applyOps (applyOp s op) (List.replicate n op) = s
    rw [hfix]
    exact ih

/-- Fifty scale-down gestures from a freshly committed garment end exactly
at the 0.1 floor. -/
lemma fifty_adjusts_reach_floor :
    (applyOps ⟨[], [exItem]⟩
        (List.replicate 50 (SessionOp.adjust (-1) 0 0 0))).activeItems.map
      (fun i => i.scale) = [0.1] := by
  have h1 : applyOps ⟨[], [exItem]⟩
      (List.replicate 50 (SessionOp.adjust (-1) 0 0 0)) = ⟨[], [exItemFloor]⟩ := by
    rw [show (50 : ℕ) = 49 + 1 from rfl, List.replicate_succ, applyOps_cons,
      applyOp_adjust_exItem]
    exact applyOps_replicate_fixed _ _ applyOp_adjust_exItemFloor_fixed 49
  rw [h1]
  rfl

/-- Claim C2: every placed garment's scale factor stays at or above 0.1
under any sequence of session operations — commits create scale 1.0 and
adjusts clamp at the mutation boundary — and, concretely, 50 successive
`adjust(-1,0,0,0)` calls from a freshly committed garment leave the scale
at exactly 0.1. -/
theorem scaleFactor_never_below_floor (s : SessionState)
    (ops : List SessionOp) (h : ScaleInv s) :
    ScaleInv (applyOps s ops) ∧
    (applyOps ⟨[], [exItem]⟩
        (List.replicate 50 (SessionOp.adjust (-1) 0 0 0))).activeItems.map
      (fun i => i.scale) = [0.1] :=
  ⟨scaleInv_applyOps s ops h, fifty_adjusts_reach_floor⟩

/-- Witness for C2: the clamp computation at the concrete 50-call
sequence, with the invariant hypothesis discharged at a concrete state. -/
theorem scaleFactor_never_below_floor_witness :
    (applyOps ⟨[], [exItem]⟩
        (List.replicate 50 (SessionOp.adjust (-1) 0 0 0))).activeItems.map
      (fun i => i.scale) = [0.1] :=
  (scaleFactor_never_below_floor ⟨[], [exItem]⟩
    [SessionOp.tryOn, SessionOp.clear]
    (by norm_num [ScaleInv, exItem])).2

/-- Claim C4: for every session state, clearing the active try-on empties
both the placement list and the staging queue in one coupled reset,
regardless of their prior contents. -/
theorem clearActive_empties_both (s : SessionState) :
    (clearActive s).activeItems = [] ∧ (clearActive s).queue = [] :=
  ⟨rfl, rfl⟩

/-- Claim C6: for every body frame whose hip center lies below the
shoulder center (in the y-down video coordinates of the landmarks),
the `DRESS` anchor's y is strictly between the shoulder and hip centers —
exactly 20% of the way from shoulders toward hips — and its x is the
shoulder center's x. -/
theorem dress_anchor_between_shoulders_and_hips (frame : BodyFrame)
    (h : frame.shoulderCenterY < frame.hipCenterY) :
    (anchorScaleFor frame Category.DRESS).anchorX = frame.shoulderCenterX ∧
    frame.shoulderCenterY < (anchorScaleFor frame Category.DRESS).anchorY ∧
    (anchorScaleFor frame Category.DRESS).anchorY < frame.hipCenterY ∧
    (anchorScaleFor frame Category.DRESS).anchorY =
      frame.shoulderCenterY +
        (frame.hipCenterY - frame.shoulderCenterY) * (1/5) := by
  have h1 : anchorScaleFor frame Category.DRESS =
      { anchorX := frame.shoulderCenterX
        anchorY := frame.shoulderCenterY +
          (frame.hipCenterY - frame.shoulderCenterY) * 0.2
        baseScale := frame.shoulderWidth * 2.5 } := by
    simp [anchorScaleFor]
  rw [h1]
  refine ⟨rfl, ?_, ?_, ?_⟩
  · have h2 : (0 : ℚ) < (frame.hipCenterY - frame.shoulderCenterY) * 0.2 := by
      have : (0 : ℚ) < frame.hipCenterY - frame.shoulderCenterY := by linarith
      positivity
    linarith
  · have h2 : (frame.hipCenterY - frame.shoulderCenterY) * 0.2 <
        frame.hipCenterY - frame.shoulderCenterY := by
      have h3 : (0 : ℚ) < frame.hipCenterY - frame.shoulderCenterY := by linarith
      nlinarith
    linarith
  · norm_num

/-- Witness for C6 at `exFrame` (shoulders at y = 0.3, hips at y = 0.7,
anchor at y = 0.38). -/
theorem dress_anchor_between_shoulders_and_hips_witness :
    (anchorScaleFor exFrame Category.DRESS).anchorX = exFrame.shoulderCenterX ∧
    exFrame.shoulderCenterY < (anchorScaleFor exFrame Category.DRESS).anchorY ∧
    (anchorScaleFor exFrame Category.DRESS).anchorY < exFrame.hipCenterY ∧
    (anchorScaleFor exFrame Category.DRESS).anchorY =
      exFrame.shoulderCenterY +
        (exFrame.hipCenterY - exFrame.shoulderCenterY) * (1/5) :=
  dress_anchor_between_shoulders_and_hips exFrame (by norm_num [exFrame])

/-- Claim C7: for every placed garment, frame and canvas size, the painted
position is `screenX = (1 − anchor.x) · canvasWidth + offsetX` (the x
coordinate mirror-flipped) and `screenY = anchor.y · canvasHeight +
offsetY` (not flipped); concretely, canvasWidth 1000 with anchor.x 0.3 and
no x offset paints at screenX 700. -/
theorem screen_mapping_mirrors_x (frame : BodyFrame) (w h : ℚ) (img : Img)
    (item : PlacedItem) :
    ((drawPlacedItem frame w h img item).screenX =
        (1 - (anchorScaleFor frame item.category).anchorX) * w + item.offsetX) ∧
    ((drawPlacedItem frame w h img item).screenY =
        (anchorScaleFor frame item.category).anchorY * h + item.offsetY) ∧
    ((drawPlacedItem
          { exFrame with shoulderCenterX := 3/10 } 1000 720 (newImage "u")
          { id := "a", imageUrl := "u", category := Category.TOP
            name := "shirt", timestamp := 0
            scale := 1, rotation := 0, offsetX := 0, offsetY := 0 }).screenX
        = 700) :=
  ⟨rfl, rfl, by simp [drawPlacedItem, anchorScaleFor, exFrame]; norm_num⟩

/-- Claim C10: committing the try-on writes only the placement list — the
staging queue after `handleTryOn` is the very list it was before, and the
manual-adjustment path never touches it either; of the session operations
the claim contrasts, only `clearActive` empties the queue. -/
theorem tryOn_leaves_queue_untouched (s : SessionState) (ds dr dx dy : ℚ) :
    ((handleTryOn s).queue = s.queue) ∧
    ((updateItemTransform ds dr dx dy s).queue = s.queue) ∧
    ((clearActive s).queue = []) := by
  refine ⟨rfl, ?_, rfl⟩
  unfold updateItemTransform
  split <;> rfl

/-- Claim C3: committing a staging queue of N garments yields exactly N
placements, in queue order, each carrying its source garment's record and
the neutral transform (scale 1.0, rotation 0, offsets 0); the result is
computed from the queue alone, so the previous placement list is fully
replaced, never merged. -/
theorem tryOn_maps_queue_to_neutral_placements (q : List ClothingItem)
    (a a' : List PlacedItem) :
    ((handleTryOn ⟨q, a⟩).activeItems.length = q.length) ∧
    (∀ i : ℕ, (handleTryOn ⟨q, a⟩).activeItems[i]? =
      (q[i]?).map (fun item =>
        { toClothingItem := item
          scale := 1.0, rotation := 0, offsetX := 0, offsetY := 0 })) ∧
    ((handleTryOn ⟨q, a⟩).activeItems = (handleTryOn ⟨q, a'⟩).activeItems) := by
  refine ⟨by simp [handleTryOn], fun i => ?_, rfl⟩
  simp [handleTryOn]

/-- Claim C5: adjusting with an empty placement list leaves the whole
session state unchanged; with a nonempty list it rewrites only the last
entry, adding each delta to its field (the scale clamped at 0.1), and
leaves the queue and every earlier placement as they were. -/
theorem adjust_noop_on_empty_else_mutates_last (ds dr dx dy : ℚ)
    (s : SessionState) :
    (s.activeItems = [] → updateItemTransform ds dr dx dy s = s) ∧
    (∀ xs x, s.activeItems = xs ++ [x] →
      updateItemTransform ds dr dx dy s =
        { queue := s.queue
          activeItems := xs ++
            [{ x with
                scale := max 0.1 (x.scale + ds)
                rotation := x.rotation + dr
                offsetX := x.offsetX + dx
                offsetY := x.offsetY + dy }] }) := by
  rcases s with ⟨q, a⟩
  constructor
  · intro h
    simp only at h
    subst h
    exact updateItemTransform_nil ds dr dx dy q
  · intro xs x hx
    simp only at hx
    subst hx
    exact updateItemTransform_concat ds dr dx dy q xs x

/-- Witness for C5: both branches at concrete states. -/
theorem adjust_noop_on_empty_else_mutates_last_witness :
    (updateItemTransform 1 2 3 4 ⟨[], []⟩ = ⟨[], []⟩) ∧
    (updateItemTransform 1 2 3 4
        ⟨[], [{ id := "a", imageUrl := "u", category := Category.TOP
                name := "shirt", timestamp := 0
                scale := 1, rotation := 0, offsetX := 0, offsetY := 0 }]⟩ =
      { queue := []
        activeItems :=
          [{ id := "a", imageUrl := "u", category := Category.TOP
             name := "shirt", timestamp := 0
             scale := max 0.1 (1 + 1), rotation := 0 + 2
             offsetX := 0 + 3, offsetY := 0 + 4 }] }) :=
  ⟨(adjust_noop_on_empty_else_mutates_last 1 2 3 4 ⟨[], []⟩).1 rfl,
   (adjust_noop_on_empty_else_mutates_last 1 2 3 4 _).2 []
      { id := "a", imageUrl := "u", category := Category.TOP
        name := "shirt", timestamp := 0
        scale := 1, rotation := 0, offsetX := 0, offsetY := 0 } rfl⟩

/-- Counterexample to claim C9 as stated: the two degradation cases do
not return the same fixed triple — the unconfigured-service placeholder
is `(TOP, "Unidentified Item", "Unknown")` while the failed-call
placeholder is `(TOP, "New Item", "Mixed")`. -/
theorem degradation_placeholders_differ :
    analyzeClothingImage "" (Except.error "boom") ≠
      analyzeClothingImage "key" (Except.error "boom") := by
  intro h
  rw [show analyzeClothingImage "" (Except.error "boom") =
      { category := Category.TOP, name := "Unidentified Item"
        color := "Unknown" } from rfl] at h
  rw [show analyzeClothingImage "key" (Except.error "boom") =
      { category := Category.TOP, name := "New Item"
        color := "Mixed" } from rfl] at h
  simp at h

/-- Claim C9 (amended): whenever the classification service is
unconfigured or its call fails, `analyzeClothingImage` returns a
deterministic fixed placeholder instead of raising — independent of the
input image — with category `TOP` in both cases, but each degradation
case has its own fixed name and color: `("Unidentified Item", "Unknown")`
when unconfigured, `("New Item", "Mixed")` on call failure. -/
theorem degradation_returns_fixed_placeholder (key err : String)
    (outcome : Except String AnalysisResult) (hkey : key ≠ "") :
    (analyzeClothingImage "" outcome =
      { category := Category.TOP, name := "Unidentified Item"
        color := "Unknown" }) ∧
    (analyzeClothingImage key (Except.error err) =
      { category := Category.TOP, name := "New Item", color := "Mixed" }) ∧
    ((analyzeClothingImage "" outcome).category = Category.TOP ∧
      (analyzeClothingImage key (Except.error err)).category = Category.TOP) := by
  refine ⟨rfl, ?_, rfl, ?_⟩
  · unfold analyzeClothingImage
    rw [if_neg hkey]
  · unfold analyzeClothingImage
    rw [if_neg hkey]

/-- Witness for the amended C9 at concrete inputs. -/
theorem degradation_returns_fixed_placeholder_witness :
    (analyzeClothingImage "" (Except.ok
        { category := Category.DRESS, name := "Silk Dress", color := "Red" }) =
      { category := Category.TOP, name := "Unidentified Item"
        color := "Unknown" }) ∧
    (analyzeClothingImage "key123" (Except.error "http 500") =
      { category := Category.TOP, name := "New Item", color := "Mixed" }) ∧
    ((analyzeClothingImage "" (Except.ok
        { category := Category.DRESS, name := "Silk Dress", color := "Red" })).category
        = Category.TOP ∧
      (analyzeClothingImage "key123" (Except.error "http 500")).category
        = Category.TOP) :=
  degradation_returns_fixed_placeholder "key123" "http 500"
    (Except.ok { category := Category.DRESS, name := "Silk Dress", color := "Red" })
    (by simp)
